import Mathlib

/-!
Shallow embedding of the ffmpeg movie-playback backend
(`engine/client/avi/avi_ffmpeg.c`) and proofs about its seek / cache /
session-lifecycle logic.

The external demux/decode/resample library is modelled at its interface:
a media file is a list of demuxed packets, `avformat_seek_file` is a
function from a target timestamp to the read-cursor position it
establishes, and the audio codec/resampler pipeline maps real packets to
optional chunks of converted PCM bytes while carrying libavcodec's
draining state: sending the empty (flush) packet that
`av_packet_unref` leaves behind switches the decoder into drain mode,
and from then on every `avcodec_send_packet` fails with `AVERROR_EOF`
until `avcodec_flush_buffers`, which this file calls only on the video
codec.  Machine integers are modelled as unbounded `Int` (none of the
verified paths depends on wrap-around), pointers to decoded buffers as
`Option`-valued data, and the floating-point branches of the timestamp
conversions as exact rational arithmetic truncated toward zero.
-/

namespace Avi

/-- ffmpeg error code `AVERROR_EOF` (negated MKTAG of "EOF "). -/
def AVERROR_EOF : Int := -541478725

/-- ffmpeg error code `AVERROR(EAGAIN)` on Linux. -/
def AVERROR_EAGAIN : Int := -11

/-- C `INT_MAX`, the initial (unbounded) end-of-audio sentinel. -/
def INT_MAX : Int := 2147483647

/-- C `INT64_MIN`, the initial keyframe / current-frame timestamp. -/
def INT64_MIN : Int := -9223372036854775808

/-- Engine-wide audio cache capacity constant `MAX_RAW_SAMPLES`; its
definition lives in an engine header outside the shown sources.  The
exact value is immaterial to every claim below. -/
def MAX_RAW_SAMPLES : Int := 1024

/-- One demuxed packet: the owning stream index and its decode timestamp
(`AVPacket::stream_index`, `AVPacket::dts`). -/
structure Packet where
  stream : Int
  dts : Int
deriving DecidableEq, Repr

/-- A stream time base (`AVRational`). -/
structure TimeBase where
  num : Int
  den : Int
deriving DecidableEq, Repr

/-- Truncation toward zero of a rational, the effect of C's implicit
`double`-to-integer conversion (idealizing the double as exact). -/
def ratTrunc (q : ℚ) : Int := q.num / q.den

/-- Reading `len` bytes starting `pos` bytes into a buffer
(`memcpy(dst, src + pos, len)` with nonnegative `pos`, `len`). -/
def sliceI (xs : List Int) (pos len : Int) : List Int :=
  (xs.drop pos.toNat).take len.toNat

/-- `AVI_AudioOffsetToTimestamp` (lines 421-437): convert a byte offset
in the virtual decoded PCM stream to a stream timestamp, via an exact
integer shortcut when the time base is one PCM sample. -/
def AVI_AudioOffsetToTimestamp (offset bps rate : Int) (tb : TimeBase) : Int :=
  if offset = 0 then 0
  else if tb.num = 1 ∧ tb.den = rate then offset / bps
  else ratTrunc ((offset : ℚ) / (bps : ℚ) * (1 / (rate : ℚ)) * ((tb.num : ℚ) / (tb.den : ℚ)))

/-- `AVI_AudioTimestampToOffset` (lines 439-452): the inverse conversion. -/
def AVI_AudioTimestampToOffset (ts bps rate : Int) (tb : TimeBase) : Int :=
  if ts = 0 then 0
  else if tb.num = 1 ∧ tb.den = rate then ts * bps
  else ratTrunc ((ts : ℚ) * ((bps : ℚ) / (rate : ℚ) * ((tb.num : ℚ) / (tb.den : ℚ))))

/-- External-library behaviour visible to the audio retrieval path of one
session: the demuxed file, the cursor established by
`avformat_seek_file` (`none` models the call returning `AVERROR_EOF`),
the decode-plus-resample pipeline (`avcodec_send_packet` /
`avcodec_receive_frame` / `swr_convert`) mapping a real packet to
converted PCM bytes (`none` on failure), and `adrain`: what the first
drain call — the one that sends the empty flush packet — receives from
the decoder's internal buffer (`none` = nothing buffered, the receive
fails).  Per-packet determinism models codecs whose frames decode
independently (PCM and plain frame codecs); the drain latch itself is
kept in the session state. -/
structure AEnv where
  file : List Packet
  aseek : Int → Option Nat
  adecode : Packet → Option (List Int)
  adrain : Option (List Int)
  audio_stream : Int
  bps : Int
  rate : Int
  tb : TimeBase

/-- Audio-relevant fields of `movie_state_s`.  `cached_audio` holds the
valid bytes `[0, cached_audio_len)` of the cache buffer;
`cached_audio_alloc` is the actual allocation size of that buffer, which
the code does not keep in sync with the `cached_audio_buf_len` field
after `Mem_Realloc`.  `pkt` is the current-position packet slot and
`cursor` the demuxer read position.  `adec_eof` is the audio decoder's
drain latch: true once the decoder has been sent the empty flush packet,
after which every further send fails (`avcodec_flush_buffers` is never
called on the audio codec). -/
structure AState where
  have_audio_cache : Bool
  cached_audio_off : Int
  cached_audio_len : Int
  cached_audio_buf_len : Int
  cached_audio_alloc : Int
  cached_audio : List Int
  audio_eof_position : Int
  pkt : Option Packet
  cursor : Nat
  adec_eof : Bool
deriving DecidableEq, Repr

/-- `AVI_DecodePacket` (lines 237-257) applied to the audio codec, with
libavcodec's draining semantics.  A latched decoder rejects every send
with `AVERROR_EOF`; a real packet decodes through `env.adecode`; the
empty packet left in the slot by `av_packet_unref` is the flush packet:
it switches the decoder into drain mode (latching it) and receives
whatever the codec still buffered.  `none` is any negative return. -/
def AVI_DecodePacketA (env : AEnv) (st : AState) : Option (List Int) × AState :=
  if st.adec_eof = true then (none, st)
  else
    match st.pkt with
    | some p => (env.adecode p, st)
    | none => (env.adrain, { st with adec_eof := true })

/-- `AVI_GetAudioChunkFromCache` (lines 401-419).  Returns the bytes the
`memcpy` copies out of the cache together with the C return value
(0 = nothing more to decode, positive = bytes still needed). -/
def AVI_GetAudioChunkFromCache (cached_audio : List Int) (cached_audio_len pos len : Int) :
    List Int × Int :=
  let size := cached_audio_len
  let wrapped := pos + len - size
  if wrapped < 0 then
    (sliceI cached_audio pos len, 0)
  else
    let remaining := size - pos
    ((if remaining > 0 then sliceI cached_audio pos remaining else []), wrapped)

/-- Scan loop of `AVI_SeekAudio` (lines 161-184): read packets, skip the
ones from other streams, stop at the first audio packet whose timestamp
exceeds the target, and keep moving every earlier audio packet into the
current-packet slot.  Returns the slot, the `valid` flag, and the number
of packets consumed from the read sequence. -/
def seekAudioScan (aud ts : Int) (pkt : Option Packet) (valid : Bool) :
    List Packet → Option Packet × Bool × Nat
  | [] => (pkt, valid, 0)
  | p :: rest =>
      if p.stream ≠ aud then
        let r := seekAudioScan aud ts pkt valid rest
        (r.1, r.2.1, r.2.2 + 1)
      else if p.dts > ts then
        (pkt, valid, 1)
      else
        let r := seekAudioScan aud ts (some p) true rest
        (r.1, r.2.1, r.2.2 + 1)

/-- `AVI_SeekAudio` (lines 144-190): position the demuxer at/before the
target timestamp, then scan forward.  `Except.error AVERROR_EOF` models
the two `return AVERROR_EOF` paths. -/
def AVI_SeekAudio (env : AEnv) (st : AState) (ts : Int) : Except Int AState :=
  match env.aseek ts with
  | none => Except.error AVERROR_EOF
  | some c =>
      let r := seekAudioScan env.audio_stream ts st.pkt false (env.file.drop c)
      if r.2.1 then Except.ok { st with pkt := r.1, cursor := c + r.2.2 }
      else Except.error AVERROR_EOF

/-- Inner read loop shared by the refill phase (lines 536-548) and the
video path: read packets until one from stream `idx` appears, returning
it and the number of packets consumed; `none` when the read sequence is
exhausted first (`av_read_frame` returned `AVERROR_EOF`). -/
def readStreamPacket (idx : Int) : List Packet → Option (Packet × Nat)
  | [] => none
  | p :: rest =>
      if p.stream = idx then some (p, 1)
      else
        match readStreamPacket idx rest with
        | none => none
        | some (q, n) => some (q, n + 1)

/-- Cache-append step of the refill loop (lines 513-529): compute the
decoded frame's byte size, stop the round early (`none`) when appending
would overflow the recorded capacity and the cache is non-empty,
otherwise grow the allocation to twice the frame size when the cache is
still empty, and append the converted bytes at `cached_audio_len`. -/
def appendDecodedFrame (st : AState) (pcm : List Int) : Option AState :=
  let size : Int := pcm.length
  let upd : AState → AState := fun s =>
    { s with
      cached_audio := s.cached_audio.take s.cached_audio_len.toNat ++ pcm,
      cached_audio_len := s.cached_audio_len + size }
  if st.cached_audio_len + size > st.cached_audio_buf_len then
    if st.cached_audio_len ≠ 0 then none
    else some (upd { st with cached_audio_alloc := size * 2 })
  else some (upd st)

/-- How the refill loop of `AVI_GetAudioChunk` ends: `ret0` models the
`return 0` on a decode failure inside the loop, `brk` the two `break`
statements. -/
inductive RefillExit where
  | ret0 : RefillExit
  | brk : RefillExit
deriving DecidableEq, Repr

/-- Refill loop of `AVI_GetAudioChunk` (lines 497-553): decode the
current packet, append the converted bytes to the cache, stop once the
decoded range reaches the end-of-audio sentinel, read the next audio
packet, and pin the sentinel to the current decoded end when the read
hits end-of-stream.  Fuel-indexed; the caller passes more fuel than the
finite packet list can consume. -/
def refillLoop (env : AEnv) : Nat → AState → Option (AState × RefillExit)
  | 0, _ => none
  | fuel + 1, st =>
      let d := AVI_DecodePacketA env st
      match d.1 with
      | none => some ({ d.2 with pkt := none }, RefillExit.ret0)
      | some pcm =>
          let st := { d.2 with pkt := none }
          match appendDecodedFrame st pcm with
          | none => some (st, RefillExit.brk)
          | some st =>
              if st.cached_audio_len + st.cached_audio_off ≥ st.audio_eof_position then
                some (st, RefillExit.brk)
              else
                match readStreamPacket env.audio_stream (env.file.drop st.cursor) with
                | some (p, n) =>
                    refillLoop env fuel { st with pkt := some p, cursor := st.cursor + n }
                | none =>
                    refillLoop env fuel
                      { st with cursor := env.file.length,
                                audio_eof_position := st.cached_audio_off + st.cached_audio_len }

/-- Cache branch of `AVI_GetAudioChunk` (lines 460-481).  `Sum.inr`
models the early `return length`; `Sum.inl` carries the possibly
adjusted `(state, writes so far, audiodata position, offset, length)`
into the seek-and-refill part.  A write is recorded as the pair of the
position in the caller's buffer and the bytes stored there. -/
def audioCacheStep (st : AState) (outPos offset length : Int) :
    (AState × List (Int × List Int) × Int × Int × Int) ⊕ (AState × List (Int × List Int) × Int) :=
  if st.have_audio_cache = true ∧ offset ≥ st.cached_audio_off then
    let cache_pos := offset - st.cached_audio_off
    let r := AVI_GetAudioChunkFromCache st.cached_audio st.cached_audio_len cache_pos length
    let newlen := r.2
    if newlen ≥ length then
      Sum.inl ({ st with have_audio_cache := false }, [(outPos, r.1)], outPos, offset, length)
    else if newlen = 0 then
      Sum.inr (st, [(outPos, r.1)], length)
    else
      Sum.inl (st, [(outPos, r.1)], outPos + newlen, offset, length - newlen)
  else
    Sum.inl (st, [], outPos, offset, length)

/-- `AVI_GetAudioChunk` (lines 454-560).  The result is `none` when the
given fuel does not cover the language-level self-recursion at line 559
(the C code would still be recursing), and otherwise the final session
state, the list of writes performed into the caller's buffer, and the C
return value. -/
def AVI_GetAudioChunk (env : AEnv) :
    Nat → AState → Int → Int → Int → Option (AState × List (Int × List Int) × Int)
  | 0, _, _, _, _ => none
  | fuel + 1, st, outPos, offset, length =>
      match audioCacheStep st outPos offset length with
      | Sum.inr r => some r
      | Sum.inl (st, writes, outPos, offset, length) =>
          let ts := AVI_AudioOffsetToTimestamp offset env.bps env.rate env.tb
          match AVI_SeekAudio env st ts with
          | Except.error _ => some (st, writes, 0)
          | Except.ok st =>
              let pdts := match st.pkt with | some p => p.dts | none => 0
              let st := { st with
                cached_audio_off := AVI_AudioTimestampToOffset pdts env.bps env.rate env.tb,
                cached_audio_len := 0, cached_audio := [], have_audio_cache := true }
              match refillLoop env (env.file.length + 2) st with
              | none => none
              | some (st, RefillExit.ret0) => some (st, writes, 0)
              | some (st, RefillExit.brk) =>
                  if st.cached_audio_len = 0 then some (st, writes, 0)
                  else
                    match AVI_GetAudioChunk env fuel st outPos offset length with
                    | none => none
                    | some (st', w', r) => some (st', writes ++ w', r)

/-- One decoded video frame as observed by `AVI_GetVideoFrame`: its
dimensions and pixel format, and an identifier distinguishing its pixel
contents (fed to the rescaler model). -/
structure VFrame where
  width : Int
  height : Int
  fmt : Int
  id : Int
deriving DecidableEq, Repr

/-- External-library behaviour visible to the video path: the demuxed
file, the `avformat_seek_file` cursor placement (`none` models the call
returning `AVERROR_EOF`), the video decoder, and `sws_scale` as a
function from a decoded frame to the BGRA bytes it writes into the
destination image. -/
structure VEnv where
  file : List Packet
  vseek : Int → Option Nat
  vdecode : Packet → Option VFrame
  scale : VFrame → List Int

/-- Video-relevant fields of `movie_state_s`.  `dst` is the destination
image pointer `dst[0]` together with its current contents; `none` models
the pointer never having been allocated. -/
structure VState where
  active : Bool
  video_stream : Int
  xres : Int
  yres : Int
  pix_fmt : Int
  keyframe_ts : Int
  currentframe_ts : Int
  pkt : Option Packet
  cursor : Nat
  dst : Option (List Int)
deriving DecidableEq, Repr

/-- `AVI_SeekVideo` (lines 192-235): position the demuxer, read forward
to the first video packet, and compare its timestamp with the stored
keyframe timestamp: equal means continue decoding (return 0), different
means remember the new keyframe and ask for a decoder restart
(`AVERROR(EAGAIN)`). -/
def AVI_SeekVideo (env : VEnv) (st : VState) (ts : Int) : Int × VState :=
  match env.vseek ts with
  | none => (AVERROR_EOF, st)
  | some c =>
      match readStreamPacket st.video_stream (env.file.drop c) with
      | none => (AVERROR_EOF, { st with cursor := env.file.length })
      | some (p, n) =>
          let st := { st with pkt := some p, cursor := c + n }
          if st.keyframe_ts ≠ p.dts then
            (AVERROR_EAGAIN, { st with keyframe_ts := p.dts })
          else
            (0, st)

/-- Forward-read loop of `AVI_GetVideoFrame` (lines 327-344): read
packets, skip other streams and video packets already decoded
(timestamp at or below `cur`), and return the first fresh video packet
with the number of packets consumed. -/
def readFreshVideoPacket (vid cur : Int) : List Packet → Option (Packet × Nat)
  | [] => none
  | p :: rest =>
      if p.stream ≠ vid then
        match readFreshVideoPacket vid cur rest with
        | none => none
        | some (q, n) => some (q, n + 1)
      else if p.dts ≤ cur then
        match readFreshVideoPacket vid cur rest with
        | none => none
        | some (q, n) => some (q, n + 1)
      else
        some (p, 1)

/-- Valid-packet determination of `AVI_GetVideoFrame` (lines 322-356)
after the seek returned `ret`: on "continue decoding" (0) with a stale
packet, read forward to a fresh one; on "restart from keyframe"
(`AVERROR(EAGAIN)`) flush the decoder (not part of the session state)
and keep the found packet; any other result leaves `valid` false. -/
def videoValidStep (env : VEnv) (ret : Int) (st : VState) (target : Int) : Bool × VState :=
  if ret = 0 then
    match st.pkt with
    | some p =>
        if p.dts < target then
          match readFreshVideoPacket st.video_stream st.currentframe_ts
              (env.file.drop st.cursor) with
          | some (q, n) => (true, { st with pkt := some q, cursor := st.cursor + n })
          | none => (false, { st with cursor := env.file.length })
        else (true, st)
    | none => (false, st)
  else if ret = AVERROR_EAGAIN then (true, st)
  else (false, st)

/-- Decode-and-convert tail of `AVI_GetVideoFrame` (lines 366-392):
record the packet's timestamp as the last decoded frame, decode it, and
rescale into the destination buffer unless the decoded frame's
dimensions or format drifted from the session's fixed configuration. -/
def videoDecodeStep (env : VEnv) (st : VState) : VState × Option (List Int) :=
  let pdts := match st.pkt with | some p => p.dts | none => 0
  let st := { st with currentframe_ts := pdts }
  match (match st.pkt with | some p => env.vdecode p | none => none) with
  | none => ({ st with pkt := none }, st.dst)
  | some f =>
      let st := { st with pkt := none }
      if f.width ≠ st.xres ∨ f.height ≠ st.yres ∨ f.fmt ≠ st.pix_fmt then
        (st, st.dst)
      else
        let st := { st with dst := some (env.scale f) }
        (st, st.dst)

/-- `AVI_GetVideoFrame` (lines 312-393).  Returns the new session state
and the returned pixel-buffer pointer: `none` is the literal `NULL`
return for inactive sessions, and otherwise the value of `dst[0]`
(whose contents `sws_scale` updates only on a fully successful decode of
a frame matching the session's fixed dimensions and format). -/
def AVI_GetVideoFrame (env : VEnv) (st : VState) (target : Int) : VState × Option (List Int) :=
  if st.active = false then (st, none)
  else
    let r := AVI_SeekVideo env st target
    let vr := videoValidStep env r.1 r.2 target
    if vr.1 = false then (vr.2, vr.2.dst)
    else videoDecodeStep env vr.2

/-- Outcomes of the external calls made by `AVI_OpenVideo`, in program
order.  A codec-context result is the stream index (nonnegative) or a
negative ffmpeg error, exactly the contract of `AVI_OpenCodecContext`. -/
structure OpenEnv where
  open_input_ok : Bool
  find_stream_info_ok : Bool
  video_codec_ret : Int
  pkt_alloc_ok : Bool
  pkt_seek_alloc_ok : Bool
  frame_alloc_ok : Bool
  width : Int
  height : Int
  pix_fmt : Int
  duration_av : Int
  sws_ok : Bool
  image_alloc_ok : Bool
  audio_codec_ret : Int
deriving DecidableEq, Repr

/-- Lifecycle view of `movie_state_s`: the `active` flag, the owned
library handles (modelled as allocated/not), and the fields
`AVI_OpenVideo` fills in.  `duration` keeps `fmt_ctx->duration /
AV_TIME_BASE` as an exact rational. -/
structure OState where
  active : Bool
  quiet : Bool
  fmt_ctx : Bool
  video_ctx : Bool
  audio_ctx : Bool
  sws_ctx : Bool
  swr_ctx : Bool
  pkt : Bool
  pkt_seek : Bool
  frame : Bool
  dst : Bool
  cached_audio : Bool
  video_stream : Int
  audio_stream : Int
  xres : Int
  yres : Int
  pix_fmt : Int
  duration : ℚ
  keyframe_ts : Int
  currentframe_ts : Int
  channels : Int
  rate : Int
  cached_audio_buf_len : Int
  audio_eof_position : Int
deriving DecidableEq

/-- The all-zero session produced by `Mem_Calloc` in `AVI_LoadVideo`. -/
def callocState : OState :=
  { active := false, quiet := false, fmt_ctx := false, video_ctx := false, audio_ctx := false,
    sws_ctx := false, swr_ctx := false, pkt := false, pkt_seek := false, frame := false,
    dst := false, cached_audio := false, video_stream := 0, audio_stream := 0, xres := 0,
    yres := 0, pix_fmt := 0, duration := 0, keyframe_ts := 0, currentframe_ts := 0,
    channels := 0, rate := 0, cached_audio_buf_len := 0, audio_eof_position := 0 }

/-- `AVI_OpenVideo` (lines 562-673), with every early `return` kept at
its source position.  `filename_ok = false` is the null-filename guard.
Each branch is the state at the corresponding `return`: the single
record expression lists exactly the fields the code has assigned since
entry (the source assigns them one by one; the flattened form keeps the
same final state at every exit while avoiding deeply nested record
updates).  Note that `active := true` is assigned (line 619) before the
pixel-converter, image-allocation and audio steps, so the leaves from
the `sws_getContext` failure on carry `active := true`. -/
def AVI_OpenVideo (env : OpenEnv) (st : OState) (filename_ok load_audio quiet : Bool) :
    OState :=
  if filename_ok = false then { st with active := false }
  else if env.open_input_ok = false then
    { st with active := false, quiet := quiet,
              video_ctx := false, audio_ctx := false, fmt_ctx := false }
  else if env.find_stream_info_ok = false then
    { st with active := false, quiet := quiet,
              video_ctx := false, audio_ctx := false, fmt_ctx := true }
  else if env.video_codec_ret < 0 then
    { st with active := false, quiet := quiet,
              audio_ctx := false, fmt_ctx := true,
              video_stream := env.video_codec_ret,
              video_ctx := decide (0 ≤ env.video_codec_ret) }
  else if env.pkt_alloc_ok = false then
    { st with active := false, quiet := quiet,
              audio_ctx := false, fmt_ctx := true,
              video_stream := env.video_codec_ret,
              video_ctx := decide (0 ≤ env.video_codec_ret) }
  else if env.pkt_seek_alloc_ok = false then
    { st with active := false, quiet := quiet,
              audio_ctx := false, fmt_ctx := true,
              video_stream := env.video_codec_ret,
              video_ctx := decide (0 ≤ env.video_codec_ret), pkt := true }
  else if env.frame_alloc_ok = false then
    { st with active := false, quiet := quiet,
              audio_ctx := false, fmt_ctx := true,
              video_stream := env.video_codec_ret,
              video_ctx := decide (0 ≤ env.video_codec_ret), pkt := true, pkt_seek := true }
  else if env.sws_ok = false then
    { st with quiet := quiet, audio_ctx := false, fmt_ctx := true,
              video_stream := env.video_codec_ret,
              video_ctx := decide (0 ≤ env.video_codec_ret),
              pkt := true, pkt_seek := true, frame := true,
              xres := env.width, yres := env.height, pix_fmt := env.pix_fmt,
              duration := (env.duration_av : ℚ) / 1000000, active := true,
              keyframe_ts := INT64_MIN, currentframe_ts := INT64_MIN }
  else if env.image_alloc_ok = false then
    { st with quiet := quiet, audio_ctx := false, fmt_ctx := true,
              video_stream := env.video_codec_ret,
              video_ctx := decide (0 ≤ env.video_codec_ret),
              pkt := true, pkt_seek := true, frame := true,
              xres := env.width, yres := env.height, pix_fmt := env.pix_fmt,
              duration := (env.duration_av : ℚ) / 1000000, active := true,
              keyframe_ts := INT64_MIN, currentframe_ts := INT64_MIN,
              sws_ctx := true }
  else if load_audio = false then
    { st with quiet := quiet, audio_ctx := false, fmt_ctx := true,
              video_stream := env.video_codec_ret,
              video_ctx := decide (0 ≤ env.video_codec_ret),
              pkt := true, pkt_seek := true, frame := true,
              xres := env.width, yres := env.height, pix_fmt := env.pix_fmt,
              duration := (env.duration_av : ℚ) / 1000000, active := true,
              keyframe_ts := INT64_MIN, currentframe_ts := INT64_MIN,
              sws_ctx := true, dst := true }
  else if env.audio_codec_ret < 0 then
    { st with quiet := quiet, fmt_ctx := true,
              video_stream := env.video_codec_ret,
              video_ctx := decide (0 ≤ env.video_codec_ret),
              pkt := true, pkt_seek := true, frame := true,
              xres := env.width, yres := env.height, pix_fmt := env.pix_fmt,
              duration := (env.duration_av : ℚ) / 1000000, active := true,
              keyframe_ts := INT64_MIN, currentframe_ts := INT64_MIN,
              sws_ctx := true, dst := true,
              audio_stream := env.audio_codec_ret,
              audio_ctx := decide (0 ≤ env.audio_codec_ret) }
  else
    { st with quiet := quiet, fmt_ctx := true,
              video_stream := env.video_codec_ret,
              video_ctx := decide (0 ≤ env.video_codec_ret),
              pkt := true, pkt_seek := true, frame := true,
              xres := env.width, yres := env.height, pix_fmt := env.pix_fmt,
              duration := (env.duration_av : ℚ) / 1000000, active := true,
              keyframe_ts := INT64_MIN, currentframe_ts := INT64_MIN,
              sws_ctx := true, dst := true,
              audio_stream := env.audio_codec_ret,
              audio_ctx := decide (0 ≤ env.audio_codec_ret),
              swr_ctx := true, channels := 2, rate := 44100,
              cached_audio_buf_len := MAX_RAW_SAMPLES,
              cached_audio := true, audio_eof_position := INT_MAX }

/-- Per-stream time bases of the opened container, used by the
frame-number conversion. -/
structure QEnv where
  tb_of : Int → TimeBase

/-- Output record of `AVI_GetAudioInfo` (`wavdata_t` fields it sets). -/
structure Wavdata where
  rate : Int
  channels : Int
  width : Int
  size : Int
  loopStart : Int
deriving DecidableEq, Repr

/-- Query-accessor view of `movie_state_s`: the fields read by
`AVI_GetVideoInfo`, `AVI_GetAudioInfo` and `AVI_GetFrameNumber`.
`s_fmt_bytes` is `av_get_bytes_per_sample(s_fmt)`. -/
structure MState where
  active : Bool
  video_stream : Int
  audio_stream : Int
  xres : Int
  yres : Int
  duration : ℚ
  channels : Int
  rate : Int
  s_fmt_bytes : Int
deriving DecidableEq

/-- `Q_rint`: round to the nearest integer (idealizing the double). -/
def Q_rint (x : ℚ) : Int := round x

/-- `av_q2d`: a time base as an exact rational number of seconds. -/
def av_q2d (tb : TimeBase) : ℚ := (tb.num : ℚ) / (tb.den : ℚ)

/-- `AVI_GetFrameNumber` (lines 259-269): 0 for inactive sessions,
otherwise the time converted to stream time-base units. -/
def AVI_GetFrameNumber (env : QEnv) (st : MState) (stream_idx : Int) (time : ℚ) : Int :=
  if st.active = false then 0
  else Q_rint (time / av_q2d (env.tb_of stream_idx))

/-- `AVI_GetVideoFrameNumber` (lines 271-274). -/
def AVI_GetVideoFrameNumber (env : QEnv) (st : MState) (time : ℚ) : Int :=
  AVI_GetFrameNumber env st st.video_stream time

/-- `AVI_TimeToSoundPosition` (lines 276-279), time in milliseconds. -/
def AVI_TimeToSoundPosition (env : QEnv) (st : MState) (time : Int) : Int :=
  AVI_GetFrameNumber env st st.audio_stream ((time : ℚ) / 1000)

/-- `AVI_GetVideoInfo` (lines 281-296): the flag result plus the values
written through the out pointers (`none` = field not written). -/
def AVI_GetVideoInfo (st : MState) : Bool × Option Int × Option Int × Option ℚ :=
  if st.active = false then (false, none, none, none)
  else (true, some st.xres, some st.yres, some st.duration)

/-- `AVI_GetAudioInfo` (lines 298-310): the flag result plus the
`wavdata_t` contents written on success (`none` = nothing written). -/
def AVI_GetAudioInfo (st : MState) : Bool × Option Wavdata :=
  if st.active = false ∨ st.audio_stream < 0 then (false, none)
  else
    (true, some { rate := st.rate, channels := st.channels, width := st.s_fmt_bytes,
                  size := st.rate * st.s_fmt_bytes * st.channels, loopStart := 0 })

/-- Modelled from the spec (section 4.3 step 3), as the declarative
description of the audio seek result: among the packets of the audio
stream in the post-seek read sequence, the last one whose timestamp does
not exceed the target. -/
def lastPacketNotExceeding (pkts : List Packet) (aud ts : Int) : Option Packet :=
  (pkts.filter (fun p => p.stream == aud && decide (p.dts ≤ ts))).getLast?

/-! Concrete external-library behaviours and session states used to
evaluate the audio retrieval path on explicit inputs.  All of them use
the session's fixed output format (stereo 16-bit, 4 bytes per sample
pair) and a source time base of one PCM sample, so every timestamp
conversion takes the exact integer shortcut. -/

/-- A file with a single audio packet that decodes to 8 PCM bytes, over
a codec with an empty internal buffer at drain time. -/
def envA : AEnv :=
  { file := [⟨0, 0⟩], aseek := fun _ => some 0,
    adecode := fun p => match p with
      | ⟨0, 0⟩ => some [1, 2, 3, 4, 5, 6, 7, 8]
      | _ => none,
    adrain := none,
    audio_stream := 0, bps := 4, rate := 44100, tb := ⟨1, 44100⟩ }

/-- The audio state right after `AVI_OpenVideo` succeeds with audio
(empty cache, sentinel at `INT_MAX`, decoder fresh); the capacity fields
reflect the `MAX_RAW_SAMPLES` allocation. -/
def stFresh : AState :=
  { have_audio_cache := false, cached_audio_off := 0, cached_audio_len := 0,
    cached_audio_buf_len := 1024, cached_audio_alloc := 1024, cached_audio := [],
    audio_eof_position := 2147483647, pkt := none, cursor := 0, adec_eof := false }

/-- The session state `AVI_GetAudioChunk envA _ stFresh 0 100 4` (and
likewise `_ 0 50 8`) reaches: the whole stream decoded into the cache,
the end-of-audio sentinel pinned at byte 8, and the audio decoder
drain-latched by the flush packet that followed the pin. -/
def st4 : AState :=
  { have_audio_cache := true, cached_audio_off := 0, cached_audio_len := 8,
    cached_audio_buf_len := 1024, cached_audio_alloc := 1024,
    cached_audio := [1, 2, 3, 4, 5, 6, 7, 8],
    audio_eof_position := 8, pkt := none, cursor := 1, adec_eof := true }

/-- The state a call on the drain-latched `st4` ends in: the cache was
reinitialized for a refill whose first decode failed on the latched
codec; the sentinel is untouched. -/
def st4b : AState :=
  { have_audio_cache := true, cached_audio_off := 0, cached_audio_len := 0,
    cached_audio_buf_len := 1024, cached_audio_alloc := 1024, cached_audio := [],
    audio_eof_position := 8, pkt := none, cursor := 1, adec_eof := true }

/-- A degenerate library environment (no packets, every seek fails);
only the cache branch of `AVI_GetAudioChunk` is exercised with it. -/
def envC : AEnv :=
  { file := [], aseek := fun _ => none, adecode := fun _ => none, adrain := none,
    audio_stream := 0, bps := 4, rate := 44100, tb := ⟨1, 44100⟩ }

/-- An active session holding a valid 8-byte audio cache at offset 0. -/
def stC : AState :=
  { have_audio_cache := true, cached_audio_off := 0, cached_audio_len := 8,
    cached_audio_buf_len := 1024, cached_audio_alloc := 1024,
    cached_audio := [1, 2, 3, 4, 5, 6, 7, 8],
    audio_eof_position := 2147483647, pkt := none, cursor := 0, adec_eof := false }

/-- A session state with audio whose cache is empty but whose recorded
capacity is 4 bytes, used to exercise the cache-growth path on a larger
decoded frame. -/
def stOv : AState :=
  { have_audio_cache := false, cached_audio_off := 0, cached_audio_len := 0,
    cached_audio_buf_len := 4, cached_audio_alloc := 4, cached_audio := [],
    audio_eof_position := 2147483647, pkt := none, cursor := 0, adec_eof := false }

/-- The 1024 converted PCM bytes (256 stereo 16-bit sample pairs) the
first gappy-stream packet decodes to: a full cache's worth. -/
def big1 : List Int := List.replicate 1024 1

/-- The 1024 converted PCM bytes the third gappy-stream packet decodes
to. -/
def big2 : List Int := List.replicate 1024 2

/-- A stream whose container timestamps advance by 512 samples per
packet while each packet decodes to only 256 samples (1024 output
bytes) — the frame spans fall short of the timestamp gaps, as happens
for HE-AAC decoded without SBR (half the timestamped samples) or any
container with sparse audio timestamps.  The decoder never needs its
internal buffer (`adrain` immaterial) on the diverging run, which never
reaches end of stream. -/
def envCyc : AEnv :=
  { file := [⟨0, 0⟩, ⟨0, 512⟩, ⟨0, 1024⟩], aseek := fun _ => some 0,
    adecode := fun p => match p with
      | ⟨0, 0⟩ => some big1
      | ⟨0, 1024⟩ => some big2
      | _ => none,
    adrain := none,
    audio_stream := 0, bps := 4, rate := 44100, tb := ⟨1, 44100⟩ }

/-- The session state a plain full-window request
(`AVI_GetAudioChunk envCyc _ stFresh 0 0 1024`) over the gappy stream
terminates in: the first packet's 1024 bytes cached at offset 0, the
refill stopped by the capacity break on the next frame, the sentinel
still unbounded, the decoder never drained. -/
def stCyc : AState :=
  { have_audio_cache := true, cached_audio_off := 0, cached_audio_len := 1024,
    cached_audio_buf_len := 1024, cached_audio_alloc := 1024,
    cached_audio := big1,
    audio_eof_position := 2147483647, pkt := none, cursor := 3, adec_eof := false }

/-- Time-base table assigning every stream one 25-fps tick. -/
def qenv0 : QEnv := { tb_of := fun _ => ⟨1, 25⟩ }

/-- An inactive session as seen by the query accessors. -/
def mstInactive : MState :=
  { active := false, video_stream := 0, audio_stream := 1, xres := 640, yres := 480,
    duration := 10, channels := 2, rate := 44100, s_fmt_bytes := 2 }

/-- A degenerate video environment (no packets, every seek fails). -/
def venv0 : VEnv :=
  { file := [], vseek := fun _ => none, vdecode := fun _ => none, scale := fun _ => [] }

/-- An inactive session as seen by the video path, still holding a
previously rendered destination buffer. -/
def vstInactive : VState :=
  { active := false, video_stream := 0, xres := 640, yres := 480, pix_fmt := 0,
    keyframe_ts := INT64_MIN, currentframe_ts := INT64_MIN,
    pkt := none, cursor := 0, dst := some [0, 0, 0, 0] }

/-- A video environment with two video packets (timestamps 0 and 5), a
decoder yielding frames that match the session's 640x480 configuration,
and a rescaler tagging the output with the frame identifier. -/
def envV : VEnv :=
  { file := [⟨0, 0⟩, ⟨0, 5⟩], vseek := fun _ => some 0,
    vdecode := fun p => some ⟨640, 480, 0, p.dts⟩,
    scale := fun f => [f.id] }

/-- An active video session right after open, holding a previously
rendered destination buffer. -/
def stV : VState :=
  { active := true, video_stream := 0, xres := 640, yres := 480, pix_fmt := 0,
    keyframe_ts := INT64_MIN, currentframe_ts := INT64_MIN,
    pkt := none, cursor := 0, dst := some [7] }

/-- `AVI_OpenVideo` outcomes where every step up to and including the
destination-frame allocation (`av_frame_alloc`) succeeds, but creating
the pixel converter (`sws_getContext`) fails. -/
def openFailEnvSws : OpenEnv :=
  { open_input_ok := true, find_stream_info_ok := true, video_codec_ret := 0,
    pkt_alloc_ok := true, pkt_seek_alloc_ok := true, frame_alloc_ok := true,
    width := 640, height := 480, pix_fmt := 0, duration_av := 10000000,
    sws_ok := false, image_alloc_ok := true, audio_codec_ret := 1 }

/-- `AVI_OpenVideo` outcomes where the whole video pipeline succeeds but
the requested audio stream is not found. -/
def openFailEnvAudio : OpenEnv :=
  { open_input_ok := true, find_stream_info_ok := true, video_codec_ret := 0,
    pkt_alloc_ok := true, pkt_seek_alloc_ok := true, frame_alloc_ok := true,
    width := 640, height := 480, pix_fmt := 0, duration_av := 10000000,
    sws_ok := true, image_alloc_ok := true, audio_codec_ret := -1 }

end Avi

namespace Avi

/-- C1 (amended): when a valid audio cache fully covers the requested
range — `byteOffset` at or after the cache's byte offset and
`byteOffset + byteLength` not past the cache's end, with
`byteLength ≥ 1` — `AVI_GetAudioChunk` copies the requested bytes from
the cache into the caller's buffer, returns `byteLength` (the full
requested length, not 0), and leaves the whole session state — in
particular the cache-valid flag, the cache's byte offset and its
length — unchanged. -/
theorem getAudioChunk_full_cache_hit (env : AEnv) (fuel : Nat) (st : AState)
    (outPos offset length : Int)
    (hc : st.have_audio_cache = true)
    (h1 : st.cached_audio_off ≤ offset)
    (h2 : offset + length ≤ st.cached_audio_off + st.cached_audio_len)
    (h3 : 1 ≤ length) :
    AVI_GetAudioChunk env (fuel + 1) st outPos offset length =
      some (st, [(outPos, sliceI st.cached_audio (offset - st.cached_audio_off) length)],
        length) := by
  have hstep : audioCacheStep st outPos offset length =
      Sum.inr (st, [(outPos, sliceI st.cached_audio (offset - st.cached_audio_off) length)],
        length) := by
    simp only [audioCacheStep, AVI_GetAudioChunkFromCache]
    rw [if_pos ⟨hc, by omega⟩]
    by_cases hw : offset - st.cached_audio_off + length - st.cached_audio_len < 0
    · rw [if_pos hw]
      rw [if_neg (by omega : ¬ (0 : Int) ≥ length), if_pos rfl]
    · rw [if_neg hw]
      have hrem : st.cached_audio_len - (offset - st.cached_audio_off) = length := by omega
      rw [hrem]
      rw [if_pos (by omega : (0 : Int) < length)]
      have hw0 : offset - st.cached_audio_off + length - st.cached_audio_len = 0 := by omega
      rw [hw0]
      rw [if_neg (by omega : ¬ (0 : Int) ≥ length), if_pos rfl]
  rw [AVI_GetAudioChunk, hstep]

/-- Witness for the full-cache-hit theorem at a concrete session: 4
bytes requested at offset 0 out of an 8-byte cache are served from the
cache with return value 4 and an unchanged state. -/
theorem getAudioChunk_full_cache_hit_witness :
    stC.have_audio_cache = true ∧ stC.cached_audio_off ≤ 0 ∧
    (0 : Int) + 4 ≤ stC.cached_audio_off + stC.cached_audio_len ∧ ((1 : Int) ≤ 4) ∧
    AVI_GetAudioChunk envC (0 + 1) stC 0 0 4 =
      some (stC, [(0, sliceI stC.cached_audio (0 - stC.cached_audio_off) 4)], 4) :=
  ⟨rfl, by decide, by decide, by decide,
   getAudioChunk_full_cache_hit envC 0 stC 0 0 4 rfl (by decide) (by decide) (by decide)⟩

/-- C2: on a session freshly produced by `Mem_Calloc`, an `AVI_OpenVideo`
call whose pixel-converter creation fails — and likewise one whose
requested audio stream is missing — returns with the session still
marked `active = true` and the failed handle unallocated, contradicting
the claim that any initialization failure leaves the session fully
inactive (the code sets `active = true` before those steps and their
failure paths return without clearing it). -/
theorem openVideo_partial_failure_leaves_active :
    (AVI_OpenVideo openFailEnvSws callocState true false false).active = true ∧
    (AVI_OpenVideo openFailEnvSws callocState true false false).sws_ctx = false ∧
    (AVI_OpenVideo openFailEnvAudio callocState true true false).active = true ∧
    (AVI_OpenVideo openFailEnvAudio callocState true true false).audio_ctx = false ∧
    (AVI_OpenVideo openFailEnvAudio callocState true true false).swr_ctx = false := by
  refine ⟨rfl, rfl, rfl, ?_, rfl⟩
  decide

/-- C1 counterexample: with a valid cache fully covering the requested
range (offset 0, length 4 inside the cached bytes 0-8), the call copies
the bytes but returns the requested length 4, not 0 as the claim
states. -/
theorem getAudioChunk_cache_hit_returns_length_cx :
    AVI_GetAudioChunk envC 1 stC 0 0 4 = some (stC, [(0, [1, 2, 3, 4])], 4) ∧
    ((4 : Int) ≠ 0) := by
  constructor <;> decide

/-- C3 counterexample: a request at byte offset 100, beyond the true
stream length of 8 bytes, returns 0 — not the full requested length 4 —
and returns 0 without writing any byte of the caller's buffer. -/
theorem getAudioChunk_beyond_eof_returns_zero_cx :
    (AVI_GetAudioChunk envA 3 stFresh 0 100 4).map (fun r => (r.2.1, r.2.2)) =
      some ([], 0) ∧ ((0 : Int) ≠ 4) := by
  constructor <;> decide

set_option maxRecDepth 100000 in
/-- Unfolding step for the diverging call: on the reachable state
`stCyc`, one round of `AVI_GetAudioChunk envCyc _ stCyc 0 1536 4`
finds the cache wrapped 516 bytes short of the request, invalidates it
copying nothing, re-seeks into the timestamp gap (landing back on the
first packet), refills the cache — decoding the first packet's 1024
bytes and capacity-breaking on the third packet's frame — back to the
identical state, and re-invokes itself on exactly the same arguments. -/
theorem stCyc_step (m : Nat) : AVI_GetAudioChunk envCyc (m + 1) stCyc 0 1536 4 =
    match AVI_GetAudioChunk envCyc m stCyc 0 1536 4 with
    | none => none
    | some (st', w', r) => some (st', [((0 : Int), ([] : List Int))] ++ w', r) := rfl

set_option maxRecDepth 100000 in
/-- C4: the recursive self-invocation of `AVI_GetAudioChunk` does not
terminate for every input.  Over the gappy stream `envCyc`, whose
container timestamps advance by more samples than each packet decodes
to, the ordinary full-window request `(0, 1024)` on a fresh session
terminates in state `stCyc` (cache holding bytes `[0, 1024)`, decoder
never drained).  The follow-up request at byte offset 1536 — inside a
timestamp gap — then diverges: the cache wraps short of it, the re-seek
lands back on the first packet, the refill capacity-breaks with a
non-empty cache that still does not cover the offset, and the call
re-invokes itself with unchanged arguments, so no amount of fuel
produces a result. -/
theorem getAudioChunk_retry_diverges :
    (AVI_GetAudioChunk envCyc 2 stFresh 0 0 1024).map (fun r => r.1) = some stCyc ∧
    ∀ n : Nat, AVI_GetAudioChunk envCyc n stCyc 0 1536 4 = none := by
  constructor
  · rfl
  · intro n
    induction n with
    | zero => rfl
    | succ m ih => rw [stCyc_step, ih]

/-- C9: when appending a decoded frame would overflow the audio cache's
recorded capacity, a non-empty cache makes the refill round stop early
with no reallocation and the state untouched (apart from the consumed
packet slot), while an empty cache makes the buffer grow to twice the
frame's byte size — so the single decoded frame fits — and the frame is
then appended. -/
theorem audio_cache_overflow_policy (env : AEnv) (fuel : Nat) (st : AState) (pcm : List Int)
    (hover : st.cached_audio_len + (pcm.length : Int) > st.cached_audio_buf_len) :
    (st.cached_audio_len ≠ 0 →
       appendDecodedFrame st pcm = none ∧
       (∀ p, st.adec_eof = false → st.pkt = some p → env.adecode p = some pcm →
         refillLoop env (fuel + 1) st = some ({ st with pkt := none }, RefillExit.brk))) ∧
    (st.cached_audio_len = 0 →
       ∃ st', appendDecodedFrame st pcm = some st' ∧
         st'.cached_audio_alloc = (pcm.length : Int) * 2 ∧
         (pcm.length : Int) ≤ st'.cached_audio_alloc ∧
         st'.cached_audio = pcm ∧
         st'.cached_audio_len = (pcm.length : Int)) := by
  constructor
  · intro hne
    have happ : ∀ (q : Option Packet) (b : Bool),
        appendDecodedFrame { st with pkt := q, adec_eof := b } pcm = none := by
      intro q b
      simp only [appendDecodedFrame]
      rw [if_pos (by simpa using hover), if_pos (by simpa using hne)]
    refine ⟨by simpa using happ st.pkt st.adec_eof, ?_⟩
    · intro p hlatch hpkt hdec
      rw [refillLoop]
      simp [AVI_DecodePacketA, hlatch, hpkt, hdec, happ]
  · intro h0
    simp only [appendDecodedFrame]
    rw [if_pos (by simpa using hover), if_neg (by simpa using h0)]
    refine ⟨_, rfl, rfl, by dsimp only; omega, by simp [h0], by simp [h0]⟩

/-- Witness for the overflow policy at a concrete empty-cache session
with recorded capacity 4 and an 8-byte decoded frame. -/
theorem audio_cache_overflow_policy_witness :
    stOv.cached_audio_len + (([1, 2, 3, 4, 5, 6, 7, 8] : List Int).length : Int) >
      stOv.cached_audio_buf_len ∧
    (∃ st', appendDecodedFrame stOv [1, 2, 3, 4, 5, 6, 7, 8] = some st' ∧
       st'.cached_audio_alloc = (([1, 2, 3, 4, 5, 6, 7, 8] : List Int).length : Int) * 2 ∧
       (([1, 2, 3, 4, 5, 6, 7, 8] : List Int).length : Int) ≤ st'.cached_audio_alloc ∧
       st'.cached_audio = [1, 2, 3, 4, 5, 6, 7, 8] ∧
       st'.cached_audio_len = (([1, 2, 3, 4, 5, 6, 7, 8] : List Int).length : Int)) :=
  ⟨by decide,
   (audio_cache_overflow_policy envC 0 stOv [1, 2, 3, 4, 5, 6, 7, 8] (by decide)).2 rfl⟩

/-- C10: on an inactive session the accessors short-circuit:
`AVI_GetVideoInfo` and `AVI_GetAudioInfo` return false writing no output
field, `AVI_GetVideoFrameNumber` and `AVI_TimeToSoundPosition` return 0,
`AVI_GetVideoFrame` returns the null pointer with the state untouched;
and `AVI_GetAudioInfo` also returns false, writing nothing, on an active
session whose audio stream index is negative. -/
theorem inactive_accessors_no_op
    (qenv : QEnv) (st : MState) (venv : VEnv) (vst : VState)
    (hm : st.active = false) (hv : vst.active = false) :
    AVI_GetVideoInfo st = (false, none, none, none) ∧
    AVI_GetAudioInfo st = (false, none) ∧
    (∀ t : ℚ, AVI_GetVideoFrameNumber qenv st t = 0) ∧
    (∀ t : Int, AVI_TimeToSoundPosition qenv st t = 0) ∧
    (∀ target : Int, AVI_GetVideoFrame venv vst target = (vst, none)) ∧
    (∀ st2 : MState, st2.active = true → st2.audio_stream < 0 →
       AVI_GetAudioInfo st2 = (false, none)) := by
  refine ⟨?_, ?_, ?_, ?_, ?_, ?_⟩
  · simp [AVI_GetVideoInfo, hm]
  · simp [AVI_GetAudioInfo, hm]
  · intro t; simp [AVI_GetVideoFrameNumber, AVI_GetFrameNumber, hm]
  · intro t; simp [AVI_TimeToSoundPosition, AVI_GetFrameNumber, hm]
  · intro target; simp [AVI_GetVideoFrame, hv]
  · intro st2 h1 h2; simp [AVI_GetAudioInfo, h1, h2]

/-- Witness for the inactive-accessor theorem at concrete inactive
session states. -/
theorem inactive_accessors_no_op_witness :
    mstInactive.active = false ∧ vstInactive.active = false ∧
    (AVI_GetVideoInfo mstInactive = (false, none, none, none) ∧
     AVI_GetAudioInfo mstInactive = (false, none) ∧
     (∀ t : ℚ, AVI_GetVideoFrameNumber qenv0 mstInactive t = 0) ∧
     (∀ t : Int, AVI_TimeToSoundPosition qenv0 mstInactive t = 0) ∧
     (∀ target : Int, AVI_GetVideoFrame venv0 vstInactive target = (vstInactive, none)) ∧
     (∀ st2 : MState, st2.active = true → st2.audio_stream < 0 →
        AVI_GetAudioInfo st2 = (false, none))) :=
  ⟨rfl, rfl, inactive_accessors_no_op qenv0 mstInactive venv0 vstInactive rfl rfl⟩

/-- The cache-copy helper never reports a negative amount of data still
needed. -/
theorem getAudioChunkFromCache_ret_nonneg (c : List Int) (l pos len : Int) :
    0 ≤ (AVI_GetAudioChunkFromCache c l pos len).2 := by
  simp only [AVI_GetAudioChunkFromCache]
  split_ifs with h h2 <;> (dsimp only; omega)

/-- When the cache branch falls through to the seek-and-refill part, the
adjusted remaining length is between 0 and the requested length. -/
theorem audioCacheStep_inl_bound (st : AState) (outPos offset length : Int)
    (y : AState × List (Int × List Int) × Int × Int × Int)
    (hlen : 0 ≤ length)
    (he : audioCacheStep st outPos offset length = Sum.inl y) :
    0 ≤ y.2.2.2.2 ∧ y.2.2.2.2 ≤ length := by
  have hnn := getAudioChunkFromCache_ret_nonneg st.cached_audio st.cached_audio_len
    (offset - st.cached_audio_off) length
  simp only [audioCacheStep] at he
  split_ifs at he with h1 h2 h3 <;> (cases he; dsimp only; omega)

/-- When the cache branch returns early, it returns the requested
length. -/
theorem audioCacheStep_inr_ret (st : AState) (outPos offset length : Int)
    (y : AState × List (Int × List Int) × Int)
    (he : audioCacheStep st outPos offset length = Sum.inr y) :
    y.2.2 = length := by
  simp only [audioCacheStep] at he
  split_ifs at he with h1 h2 h3
  all_goals (cases he; try rfl)

/-- C3 (amended): for every request of nonnegative length, whenever
`AVI_GetAudioChunk` terminates its result lies in `[0, byteLength]`.
The other two parts of the claim fail on the code (see the
counterexample): a return of 0 signals that decoding produced nothing —
not a fully written buffer — and a request beyond the true stream
length returns 0 rather than the full requested length. -/
theorem getAudioChunk_result_range (env : AEnv) :
    ∀ (fuel : Nat) (st : AState) (outPos offset length : Int)
      (st' : AState) (w : List (Int × List Int)) (r : Int),
      0 ≤ length →
      AVI_GetAudioChunk env fuel st outPos offset length = some (st', w, r) →
      0 ≤ r ∧ r ≤ length := by
  intro fuel
  induction fuel with
  | zero =>
      intro st outPos offset length st' w r _ h
      exact absurd h (by simp [AVI_GetAudioChunk])
  | succ n ih =>
      intro st outPos offset length st' w r hlen h
      rw [AVI_GetAudioChunk] at h
      split at h
      · rename_i y2 heq
        injection h with h2
        subst h2
        have hr := audioCacheStep_inr_ret st outPos offset length _ heq
        dsimp only at hr
        omega
      · rename_i st2 w2 o2 off2 l2 heq
        have hbound := audioCacheStep_inl_bound st outPos offset length (st2, w2, o2, off2, l2)
          hlen heq
        dsimp only at hbound
        dsimp only at h
        rcases hseek : AVI_SeekAudio env st2
            (AVI_AudioOffsetToTimestamp off2 env.bps env.rate env.tb) with e | st3
        · rw [hseek] at h
          dsimp only at h
          simp only [Option.some.injEq, Prod.mk.injEq] at h
          omega
        · rw [hseek] at h
          dsimp only at h
          split at h
          · exact Option.noConfusion h
          · simp only [Option.some.injEq, Prod.mk.injEq] at h
            omega
          · split at h
            · simp only [Option.some.injEq, Prod.mk.injEq] at h
              omega
            · split at h
              · exact Option.noConfusion h
              · rename_i st6 w6 r6 heq2
                simp only [Option.some.injEq, Prod.mk.injEq] at h
                have hb2 := ih _ _ _ _ _ _ _ (by omega) heq2
                omega

/-- Witness for the range theorem on a terminating concrete call: the
beyond-end-of-stream request of length 4 returns 0, which lies in
`[0, 4]`. -/
theorem getAudioChunk_result_range_witness :
    (0 : Int) ≤ 4 ∧
    AVI_GetAudioChunk envA 3 stFresh 0 100 4 = some (st4, [], 0) ∧
    (0 ≤ (0 : Int) ∧ (0 : Int) ≤ 4) :=
  ⟨by decide, by decide,
   getAudioChunk_result_range envA 3 stFresh 0 100 4 st4 [] 0 (by decide) (by decide)⟩

/-- Fields of the session state a successful cache append leaves
unchanged, and the exact cache growth it performs. -/
theorem appendDecodedFrame_fields (st : AState) (pcm : List Int) (st2 : AState)
    (h : appendDecodedFrame st pcm = some st2) :
    st2.cached_audio_off = st.cached_audio_off ∧
    st2.audio_eof_position = st.audio_eof_position ∧
    st2.cached_audio_len = st.cached_audio_len + pcm.length ∧
    st2.cursor = st.cursor ∧ st2.pkt = st.pkt ∧ st2.adec_eof = st.adec_eof := by
  simp only [appendDecodedFrame] at h
  split_ifs at h with h1 h2
  all_goals (cases h; exact ⟨rfl, rfl, rfl, rfl, rfl, rfl⟩)

/-- The cache branch of a call leaves the end-of-audio sentinel and the
decoder drain latch exactly as it found them: the continuing outcome
differs from the input state at most in the cache-validity flag. -/
theorem audioCacheStep_inl_preserve (st : AState) (outPos offset length : Int)
    (y : AState × List (Int × List Int) × Int × Int × Int)
    (he : audioCacheStep st outPos offset length = Sum.inl y) :
    y.1.audio_eof_position = st.audio_eof_position ∧ y.1.adec_eof = st.adec_eof := by
  simp only [audioCacheStep] at he
  split_ifs at he with h1 h2 h3
  all_goals (cases he; try exact ⟨rfl, rfl⟩)

/-- The early-return outcome of the cache branch is the input state
itself. -/
theorem audioCacheStep_inr_state (st : AState) (outPos offset length : Int)
    (y : AState × List (Int × List Int) × Int)
    (he : audioCacheStep st outPos offset length = Sum.inr y) :
    y.1 = st := by
  simp only [audioCacheStep] at he
  split_ifs at he with h1 h2 h3
  all_goals (cases he; try rfl)

/-- `AVI_SeekAudio` repositions the packet slot and the demuxer cursor
only: the end-of-audio sentinel and the decoder drain latch pass
through untouched (the code never calls `avcodec_flush_buffers` on the
audio codec). -/
theorem seekAudio_preserve (env : AEnv) (st : AState) (ts : Int) (st2 : AState)
    (h : AVI_SeekAudio env st ts = Except.ok st2) :
    st2.audio_eof_position = st.audio_eof_position ∧ st2.adec_eof = st.adec_eof := by
  simp only [AVI_SeekAudio] at h
  split at h
  · cases h
  · split_ifs at h
    · cases h; exact ⟨rfl, rfl⟩

/-- A drain-latched audio decoder fails every further
`AVI_DecodePacket`, so on a latched state the refill loop stops at its
very first decode: it consumes the packet slot and exits through the
`return 0` path with the state otherwise untouched. -/
theorem refill_latched (env : AEnv) (n : Nat) (st : AState)
    (h : st.adec_eof = true) (hn : n ≠ 0) :
    refillLoop env n st = some ({ st with pkt := none }, RefillExit.ret0) := by
  cases n with
  | zero => exact absurd rfl hn
  | succ m =>
      rw [refillLoop]
      simp [AVI_DecodePacketA, h]

/-- A refill round entered with a latched decoder ends latched with the
sentinel untouched. -/
theorem refill_latched_out (env : AEnv) (n : Nat) (st st' : AState) (e : RefillExit)
    (hl : st.adec_eof = true) (h : refillLoop env n st = some (st', e)) :
    st'.adec_eof = true ∧ st'.audio_eof_position = st.audio_eof_position := by
  cases n with
  | zero => cases h
  | succ m =>
      rw [refill_latched env (m + 1) st hl (by omega)] at h
      cases h
      exact ⟨hl, rfl⟩

/-- When the refill loop decodes with an empty packet slot — the flush
packet left by `av_packet_unref` — the decoder enters drain mode:
whatever the round does afterwards, the state it ends in is
drain-latched. -/
theorem refill_drain_latches (env : AEnv) (n : Nat) (st st' : AState) (e : RefillExit)
    (hl : st.adec_eof = false) (hp : st.pkt = none)
    (h : refillLoop env n st = some (st', e)) :
    st'.adec_eof = true := by
  cases n with
  | zero => cases h
  | succ m =>
      rw [refillLoop] at h
      rw [show AVI_DecodePacketA env st = (env.adrain, { st with adec_eof := true }) from by
        simp [AVI_DecodePacketA, hl, hp]] at h
      dsimp only at h
      split at h
      · cases h; rfl
      · rename_i pcm hdrain
        split at h
        · cases h; rfl
        · rename_i st2 happ
          have hf := appendDecodedFrame_fields _ pcm st2 happ
          have hadec : st2.adec_eof = true := hf.2.2.2.2.2
          split at h
          · cases h; exact hadec
          · split at h
            · exact (refill_latched_out env m _ st' e (by exact hadec) h).1
            · exact (refill_latched_out env m _ st' e (by exact hadec) h).1

/-- Across any refill round, either the end-of-audio sentinel comes out
exactly as it went in, or the round pinned it — and the pin is
immediately followed by decoding the flush packet, leaving the state
drain-latched. -/
theorem refill_eof_inv (env : AEnv) :
    ∀ (n : Nat) (st st' : AState) (e : RefillExit),
      refillLoop env n st = some (st', e) →
      st'.audio_eof_position = st.audio_eof_position ∨ st'.adec_eof = true := by
  intro n
  induction n with
  | zero => intro st st' e h; cases h
  | succ m ih =>
      intro st st' e h
      by_cases hl : st.adec_eof = true
      · exact Or.inl (refill_latched_out env (m + 1) st st' e hl h).2
      · have hl' : st.adec_eof = false := by simpa using hl
        cases hp : st.pkt with
        | none => exact Or.inr (refill_drain_latches env (m + 1) st st' e hl' hp h)
        | some p =>
            rw [refillLoop] at h
            rw [show AVI_DecodePacketA env st = (env.adecode p, st) from by
              simp [AVI_DecodePacketA, hl', hp]] at h
            dsimp only at h
            split at h
            · cases h; exact Or.inl rfl
            · rename_i pcm hdec
              split at h
              · cases h; exact Or.inl rfl
              · rename_i st2 happ
                have hf := appendDecodedFrame_fields _ pcm st2 happ
                have heof : st2.audio_eof_position = st.audio_eof_position := hf.2.1
                have hadec : st2.adec_eof = false := hf.2.2.2.2.2.trans hl'
                have hpkt : st2.pkt = none := hf.2.2.2.2.1
                split at h
                · cases h; exact Or.inl heof
                · split at h
                  · rename_i q k hread
                    rcases ih _ st' e h with h5 | h5
                    · exact Or.inl (h5.trans heof)
                    · exact Or.inr h5
                  · exact Or.inr (refill_drain_latches env m _ st' e (by exact hadec)
                      (by exact hpkt) h)

/-- A drain-latched session stays drain-latched through a whole
`AVI_GetAudioChunk` call, with the end-of-audio sentinel untouched: the
refill fails at its very first decode and the recursion, if taken,
stays latched. -/
theorem getAudioChunk_latched (env : AEnv) :
    ∀ (fuel : Nat) (st : AState) (outPos offset length : Int)
      (st' : AState) (w : List (Int × List Int)) (r : Int),
      st.adec_eof = true →
      AVI_GetAudioChunk env fuel st outPos offset length = some (st', w, r) →
      st'.adec_eof = true ∧ st'.audio_eof_position = st.audio_eof_position := by
  intro fuel
  induction fuel with
  | zero => intro st o off l st' w r _ h; cases h
  | succ m ih =>
      intro st o off l st' w r hl h
      rw [AVI_GetAudioChunk] at h
      split at h
      · rename_i y heq
        have hst := audioCacheStep_inr_state st o off l y heq
        injection h with h2
        rw [h2] at hst
        have h3 : st' = st := hst
        rw [h3]
        exact ⟨hl, rfl⟩
      · rename_i st2 w2 o2 off2 l2 heq
        have hpres := audioCacheStep_inl_preserve st o off l (st2, w2, o2, off2, l2) heq
        dsimp only at hpres
        dsimp only at h
        rcases hseek : AVI_SeekAudio env st2
            (AVI_AudioOffsetToTimestamp off2 env.bps env.rate env.tb) with e0 | st3
        · rw [hseek] at h
          dsimp only at h
          simp only [Option.some.injEq, Prod.mk.injEq] at h
          rw [← h.1]
          exact ⟨hpres.2.trans hl, hpres.1⟩
        · rw [hseek] at h
          dsimp only at h
          have hsp := seekAudio_preserve env st2 _ st3 hseek
          have hl3 : st3.adec_eof = true := hsp.2.trans (hpres.2.trans hl)
          split at h
          · exact Option.noConfusion h
          · rename_i st5 heqR
            have hro := refill_latched_out env _ _ st5 RefillExit.ret0 (by exact hl3) heqR
            simp only [Option.some.injEq, Prod.mk.injEq] at h
            rw [← h.1]
            exact ⟨hro.1, hro.2.trans (hsp.1.trans hpres.1)⟩
          · rename_i st5 heqR
            have hro := refill_latched_out env _ _ st5 RefillExit.brk (by exact hl3) heqR
            split_ifs at h
            · simp only [Option.some.injEq, Prod.mk.injEq] at h
              rw [← h.1]
              exact ⟨hro.1, hro.2.trans (hsp.1.trans hpres.1)⟩
            · split at h
              · exact Option.noConfusion h
              · rename_i st6 w6 r6 heq2
                have hrec := ih st5 o2 off2 l2 st6 w6 r6 hro.1 heq2
                simp only [Option.some.injEq, Prod.mk.injEq] at h
                rw [← h.1]
                exact ⟨hrec.1, (hrec.2.trans hro.2).trans (hsp.1.trans hpres.1)⟩

/-- Across any terminating `AVI_GetAudioChunk` call, either the
end-of-audio sentinel comes out exactly as it went in, or the call
pinned it and the resulting session is drain-latched. -/
theorem getAudioChunk_eof_inv (env : AEnv) :
    ∀ (fuel : Nat) (st : AState) (outPos offset length : Int)
      (st' : AState) (w : List (Int × List Int)) (r : Int),
      AVI_GetAudioChunk env fuel st outPos offset length = some (st', w, r) →
      st'.audio_eof_position = st.audio_eof_position ∨ st'.adec_eof = true := by
  intro fuel
  induction fuel with
  | zero => intro st o off l st' w r h; cases h
  | succ m ih =>
      intro st o off l st' w r h
      rw [AVI_GetAudioChunk] at h
      split at h
      · rename_i y heq
        have hst := audioCacheStep_inr_state st o off l y heq
        injection h with h2
        rw [h2] at hst
        have h3 : st' = st := hst
        rw [h3]
        exact Or.inl rfl
      · rename_i st2 w2 o2 off2 l2 heq
        have hpres := audioCacheStep_inl_preserve st o off l (st2, w2, o2, off2, l2) heq
        dsimp only at hpres
        dsimp only at h
        rcases hseek : AVI_SeekAudio env st2
            (AVI_AudioOffsetToTimestamp off2 env.bps env.rate env.tb) with e0 | st3
        · rw [hseek] at h
          dsimp only at h
          simp only [Option.some.injEq, Prod.mk.injEq] at h
          rw [← h.1]
          exact Or.inl hpres.1
        · rw [hseek] at h
          dsimp only at h
          have hsp := seekAudio_preserve env st2 _ st3 hseek
          split at h
          · exact Option.noConfusion h
          · rename_i st5 heqR
            rcases refill_eof_inv env _ _ st5 RefillExit.ret0 heqR with h5 | h5
            · simp only [Option.some.injEq, Prod.mk.injEq] at h
              rw [← h.1]
              exact Or.inl ((h5.trans (hsp.1.trans hpres.1)))
            · simp only [Option.some.injEq, Prod.mk.injEq] at h
              rw [← h.1]
              exact Or.inr h5
          · rename_i st5 heqR
            rcases refill_eof_inv env _ _ st5 RefillExit.brk heqR with h5 | h5
            · split_ifs at h
              · simp only [Option.some.injEq, Prod.mk.injEq] at h
                rw [← h.1]
                exact Or.inl (h5.trans (hsp.1.trans hpres.1))
              · split at h
                · exact Option.noConfusion h
                · rename_i st6 w6 r6 heq2
                  simp only [Option.some.injEq, Prod.mk.injEq] at h
                  rw [← h.1]
                  rcases ih st5 o2 off2 l2 st6 w6 r6 heq2 with h6 | h6
                  · exact Or.inl ((h6.trans h5).trans (hsp.1.trans hpres.1))
                  · exact Or.inr h6
            · split_ifs at h
              · simp only [Option.some.injEq, Prod.mk.injEq] at h
                rw [← h.1]
                exact Or.inr h5
              · split at h
                · exact Option.noConfusion h
                · rename_i st6 w6 r6 heq2
                  simp only [Option.some.injEq, Prod.mk.injEq] at h
                  rw [← h.1]
                  exact Or.inr (getAudioChunk_latched env m st5 o2 off2 l2 st6 w6 r6 h5 heq2).1

/-- C8: the end-of-audio sentinel never decreases once pinned.  The pin
at end-of-stream is immediately followed by decoding the emptied packet
slot — the flush packet — which drain-latches the audio decoder for the
rest of the session (the code never calls `avcodec_flush_buffers` on
it), and a latched session can never reach the pin again: (a) a call
entered with a latched decoder leaves the sentinel untouched and the
latch set; (b) any call that changes the sentinel leaves the decoder
latched; (c) hence once a call has pinned the sentinel, every
subsequent call returns it unchanged — the sentinel is assigned at most
once and never decreases after pinning. -/
theorem audio_eof_sentinel_never_decreases (env : AEnv) :
    (∀ (fuel : Nat) (st : AState) (outPos offset length : Int)
       (st' : AState) (w : List (Int × List Int)) (r : Int),
       st.adec_eof = true →
       AVI_GetAudioChunk env fuel st outPos offset length = some (st', w, r) →
       st'.audio_eof_position = st.audio_eof_position ∧ st'.adec_eof = true) ∧
    (∀ (fuel : Nat) (st : AState) (outPos offset length : Int)
       (st' : AState) (w : List (Int × List Int)) (r : Int),
       AVI_GetAudioChunk env fuel st outPos offset length = some (st', w, r) →
       st'.audio_eof_position ≠ st.audio_eof_position →
       st'.adec_eof = true) ∧
    (∀ (fuel1 : Nat) (st : AState) (o1 f1 l1 : Int) (st' : AState)
       (w1 : List (Int × List Int)) (r1 : Int)
       (fuel2 : Nat) (o2 f2 l2 : Int) (st'' : AState)
       (w2 : List (Int × List Int)) (r2 : Int),
       AVI_GetAudioChunk env fuel1 st o1 f1 l1 = some (st', w1, r1) →
       st'.audio_eof_position ≠ st.audio_eof_position →
       AVI_GetAudioChunk env fuel2 st' o2 f2 l2 = some (st'', w2, r2) →
       st''.audio_eof_position = st'.audio_eof_position) := by
  refine ⟨?_, ?_, ?_⟩
  · intro fuel st o off l st' w r hl h
    have hres := getAudioChunk_latched env fuel st o off l st' w r hl h
    exact ⟨hres.2, hres.1⟩
  · intro fuel st o off l st' w r h hne
    rcases getAudioChunk_eof_inv env fuel st o off l st' w r h with h1 | h1
    · exact absurd h1 hne
    · exact h1
  · intro fuel1 st o1 f1 l1 st' w1 r1 fuel2 o2 f2 l2 st'' w2 r2 h1 hne h2
    have hlat : st'.adec_eof = true := by
      rcases getAudioChunk_eof_inv env fuel1 st o1 f1 l1 st' w1 r1 h1 with hx | hx
      · exact absurd hx hne
      · exact hx
    exact (getAudioChunk_latched env fuel2 st' o2 f2 l2 st'' w2 r2 hlat h2).2

/-- Witness: over the one-packet stream, a first call pins the sentinel
to byte 8 (changing it from `INT_MAX`) and leaves the session
drain-latched; a second call, at the pinned end, then returns the
sentinel unchanged at 8, as part (c) of the theorem states. -/
theorem audio_eof_sentinel_never_decreases_witness :
    AVI_GetAudioChunk envA 3 stFresh 0 50 8 = some (st4, [], 0) ∧
    st4.audio_eof_position ≠ stFresh.audio_eof_position ∧
    AVI_GetAudioChunk envA 1 st4 0 8 4 = some (st4b, [((0 : Int), ([] : List Int))], 0) ∧
    st4b.audio_eof_position = st4.audio_eof_position :=
  ⟨by decide, by decide, by decide,
   (audio_eof_sentinel_never_decreases envA).2.2 3 stFresh 0 50 8 st4 [] 0 1 0 8 4 st4b
     [((0 : Int), ([] : List Int))] 0 (by decide) (by decide) (by decide)⟩

/-- `AVI_SeekVideo` changes neither the destination buffer, nor the
video stream index, nor the last-decoded-frame timestamp. -/
theorem seekVideo_fields (env : VEnv) (st : VState) (ts : Int) :
    (AVI_SeekVideo env st ts).2.dst = st.dst ∧
    (AVI_SeekVideo env st ts).2.video_stream = st.video_stream ∧
    (AVI_SeekVideo env st ts).2.currentframe_ts = st.currentframe_ts := by
  unfold AVI_SeekVideo
  dsimp only
  repeat' split
  all_goals exact ⟨rfl, rfl, rfl⟩

/-- The valid-packet determination changes neither the destination
buffer, nor the video stream index, nor the keyframe timestamp. -/
theorem videoValidStep_fields (env : VEnv) (ret : Int) (st : VState) (target : Int) :
    (videoValidStep env ret st target).2.dst = st.dst ∧
    (videoValidStep env ret st target).2.video_stream = st.video_stream ∧
    (videoValidStep env ret st target).2.keyframe_ts = st.keyframe_ts := by
  unfold videoValidStep
  repeat' split
  all_goals exact ⟨rfl, rfl, rfl⟩

/-- The decode-and-convert tail always returns the destination buffer of
its final state, leaves the buffer unchanged except for a successful
rescale, and touches neither the stream index nor the keyframe
timestamp. -/
theorem videoDecodeStep_shape (env : VEnv) (st : VState) :
    (videoDecodeStep env st).2 = (videoDecodeStep env st).1.dst ∧
    ((videoDecodeStep env st).1.dst = st.dst ∨
      ∃ f, (videoDecodeStep env st).1.dst = some (env.scale f)) ∧
    (videoDecodeStep env st).1.video_stream = st.video_stream ∧
    (videoDecodeStep env st).1.keyframe_ts = st.keyframe_ts := by
  unfold videoDecodeStep
  dsimp only
  repeat' split
  all_goals
    first
      | exact ⟨rfl, Or.inl rfl, rfl, rfl⟩
      | exact ⟨rfl, Or.inr ⟨_, rfl⟩, rfl, rfl⟩

/-- C5: on an active session holding a destination buffer,
`AVI_GetVideoFrame` never returns the null pointer: it returns the
session's destination buffer, whose contents are either the previously
rendered frame, unchanged (every failure path: degenerate seek, end of
stream, decode error, format drift), or the freshly rescaled decoded
frame. -/
theorem getVideoFrame_never_null (env : VEnv) (st : VState) (target : Int) (b : List Int)
    (ha : st.active = true) (hd : st.dst = some b) :
    ∃ b2, (AVI_GetVideoFrame env st target).2 = some b2 ∧
      (b2 = b ∨ ∃ f, b2 = env.scale f) := by
  unfold AVI_GetVideoFrame
  rw [if_neg (by simp [ha])]
  dsimp only
  have h1 : (AVI_SeekVideo env st target).2.dst = some b := by
    rw [(seekVideo_fields env st target).1, hd]
  split
  · refine ⟨b, ?_, Or.inl rfl⟩
    dsimp only
    rw [(videoValidStep_fields env _ _ target).1, h1]
  · obtain ⟨hres, hdisj, -, -⟩ := videoDecodeStep_shape env
      (videoValidStep env (AVI_SeekVideo env st target).1 (AVI_SeekVideo env st target).2
        target).2
    rcases hdisj with hrow | ⟨f, hf⟩
    · refine ⟨b, ?_, Or.inl rfl⟩
      rw [hres, hrow, (videoValidStep_fields env _ _ target).1, h1]
    · exact ⟨env.scale f, by rw [hres, hf], Or.inr ⟨f, rfl⟩⟩

/-- Witness for the never-null theorem on a concrete active session. -/
theorem getVideoFrame_never_null_witness :
    stV.active = true ∧ stV.dst = some [7] ∧
    ∃ b2, (AVI_GetVideoFrame envV stV 0).2 = some b2 ∧
      (b2 = [7] ∨ ∃ f, b2 = envV.scale f) :=
  ⟨rfl, rfl, getVideoFrame_never_null envV stV 0 [7] rfl rfl⟩

/-- The keyframe comparison of `AVI_SeekVideo`: with the demuxer
positioned at `c` and the first video packet found being `p`, an
unchanged keyframe timestamp yields "continue decoding" (0) with no
state change beyond the packet slot and cursor, while a new keyframe
updates the stored timestamp and yields `AVERROR(EAGAIN)`. -/
theorem seekVideo_char (env : VEnv) (st : VState) (target : Int) (c : Nat) (p : Packet) (n : Nat)
    (hs : env.vseek target = some c)
    (hr : readStreamPacket st.video_stream (env.file.drop c) = some (p, n)) :
    (st.keyframe_ts = p.dts →
       AVI_SeekVideo env st target = (0, { st with pkt := some p, cursor := c + n })) ∧
    (st.keyframe_ts ≠ p.dts →
       AVI_SeekVideo env st target =
         (AVERROR_EAGAIN, { st with pkt := some p, cursor := c + n, keyframe_ts := p.dts })) := by
  unfold AVI_SeekVideo
  rw [hs]
  dsimp only
  rw [hr]
  dsimp only
  constructor
  · intro heq
    rw [if_neg (by simp [heq])]
  · intro hne
    rw [if_pos (by simpa using hne)]

/-- After a successful video seek that found packet `p`, the stored
keyframe timestamp equals `p.dts` in both outcome branches. -/
theorem seekVideo_keyframe_val (env : VEnv) (st : VState) (target : Int) (c : Nat) (p : Packet)
    (n : Nat) (hs : env.vseek target = some c)
    (hr : readStreamPacket st.video_stream (env.file.drop c) = some (p, n)) :
    (AVI_SeekVideo env st target).2.keyframe_ts = p.dts := by
  unfold AVI_SeekVideo
  rw [hs]
  dsimp only
  rw [hr]
  dsimp only
  by_cases h : st.keyframe_ts ≠ p.dts
  · rw [if_pos h]
  · rw [if_neg h]
    exact not_not.mp h

/-- `AVI_GetVideoFrame` preserves the keyframe timestamp and stream
index established by its internal seek. -/
theorem getVideoFrame_keyframe_stream (env : VEnv) (st : VState) (target : Int)
    (ha : st.active = true) :
    (AVI_GetVideoFrame env st target).1.keyframe_ts =
      (AVI_SeekVideo env st target).2.keyframe_ts ∧
    (AVI_GetVideoFrame env st target).1.video_stream =
      (AVI_SeekVideo env st target).2.video_stream := by
  unfold AVI_GetVideoFrame
  rw [if_neg (by simp [ha])]
  dsimp only
  split
  · exact ⟨(videoValidStep_fields env _ _ target).2.2,
      (videoValidStep_fields env _ _ target).2.1⟩
  · obtain ⟨-, -, hvs, hkf⟩ := videoDecodeStep_shape env
      (videoValidStep env (AVI_SeekVideo env st target).1 (AVI_SeekVideo env st target).2
        target).2
    constructor
    · rw [hkf, (videoValidStep_fields env _ _ target).2.2]
    · rw [hvs, (videoValidStep_fields env _ _ target).2.1]

/-- C7: the video seek signals "continue decoding" (0, no decoder
flush) exactly when the found packet's timestamp equals the stored
keyframe timestamp, and otherwise stores the new timestamp and signals
"restart from keyframe" (`AVERROR(EAGAIN)`); consequently, after one
`AVI_GetVideoFrame` call at a target, a second seek of the resulting
session at the same target returns "continue decoding". -/
theorem seekVideo_keyframe_protocol (env : VEnv) (st : VState) (target : Int)
    (c : Nat) (p : Packet) (n : Nat)
    (ha : st.active = true)
    (hs : env.vseek target = some c)
    (hr : readStreamPacket st.video_stream (env.file.drop c) = some (p, n)) :
    (st.keyframe_ts = p.dts →
       AVI_SeekVideo env st target = (0, { st with pkt := some p, cursor := c + n })) ∧
    (st.keyframe_ts ≠ p.dts →
       AVI_SeekVideo env st target =
         (AVERROR_EAGAIN, { st with pkt := some p, cursor := c + n, keyframe_ts := p.dts })) ∧
    (AVI_SeekVideo env (AVI_GetVideoFrame env st target).1 target).1 = 0 := by
  obtain ⟨hchar1, hchar2⟩ := seekVideo_char env st target c p n hs hr
  obtain ⟨hkf, hvs⟩ := getVideoFrame_keyframe_stream env st target ha
  refine ⟨hchar1, hchar2, ?_⟩
  have hvs2 : (AVI_GetVideoFrame env st target).1.video_stream = st.video_stream := by
    rw [hvs, (seekVideo_fields env st target).2.1]
  have hkf2 : (AVI_GetVideoFrame env st target).1.keyframe_ts = p.dts := by
    rw [hkf]
    exact seekVideo_keyframe_val env st target c p n hs hr
  unfold AVI_SeekVideo
  rw [hs]
  dsimp only
  rw [hvs2, hr]
  dsimp only
  rw [if_neg (by simp [hkf2])]

/-- Witness for the keyframe protocol on a concrete session: video
packet at timestamp 0, fresh session, target 0. -/
theorem seekVideo_keyframe_protocol_witness :
    stV.active = true ∧ envV.vseek 0 = some 0 ∧
    readStreamPacket stV.video_stream (envV.file.drop 0) = some (⟨0, 0⟩, 1) ∧
    ((stV.keyframe_ts = Packet.dts ⟨0, 0⟩ →
       AVI_SeekVideo envV stV 0 = (0, { stV with pkt := some ⟨0, 0⟩, cursor := 0 + 1 })) ∧
     (stV.keyframe_ts ≠ Packet.dts ⟨0, 0⟩ →
       AVI_SeekVideo envV stV 0 =
         (AVERROR_EAGAIN,
          { stV with pkt := some ⟨0, 0⟩, cursor := 0 + 1, keyframe_ts := Packet.dts ⟨0, 0⟩ })) ∧
     (AVI_SeekVideo envV (AVI_GetVideoFrame envV stV 0).1 0).1 = 0) :=
  ⟨rfl, rfl, by decide,
   seekVideo_keyframe_protocol envV stV 0 0 ⟨0, 0⟩ 1 rfl rfl (by decide)⟩

/-- Folding a cons through the keep-the-last combination used by the
audio seek scan. -/
theorem elim_getLast_cons (p : Packet) (xs : List Packet) (pkt : Option Packet) :
    ((p :: xs).getLast?).elim pkt some = (xs.getLast?).elim (some p) some := by
  cases xs with
  | nil => rfl
  | cons y ys =>
      rw [List.getLast?_cons_cons]
      cases h : (y :: ys).getLast? with
      | none => exact absurd h (by simp)
      | some q => rfl

/-- The audio seek scan computes, over the packets it reads, the last
audio-stream packet of the prefix delimited by the first audio packet
whose timestamp exceeds the target — declaratively, the last element of
`takeWhile (dts ≤ ts)` of the audio-filtered read sequence — and its
`valid` flag records whether any such packet was found. -/
theorem seekAudioScan_spec (aud ts : Int) :
    ∀ (l : List Packet) (pkt : Option Packet) (valid : Bool),
      (seekAudioScan aud ts pkt valid l).1 =
        (((l.filter (fun p => p.stream == aud)).takeWhile
            (fun p => decide (p.dts ≤ ts))).getLast?).elim pkt some ∧
      (seekAudioScan aud ts pkt valid l).2.1 =
        (valid || !((l.filter (fun p => p.stream == aud)).takeWhile
            (fun p => decide (p.dts ≤ ts))).isEmpty) := by
  intro l
  induction l with
  | nil => intro pkt valid; simp [seekAudioScan]
  | cons p rest ih =>
      intro pkt valid
      by_cases h : p.stream = aud
      · by_cases hgt : p.dts > ts
        · have hf : ¬ p.stream ≠ aud := by simpa using h
          rw [seekAudioScan, if_neg hf, if_pos hgt]
          have hb : (p.stream == aud) = true := by simpa using h
          rw [List.filter_cons_of_pos (by simpa using hb)]
          have hnle : ¬ p.dts ≤ ts := by omega
          have htw : ((p :: List.filter (fun p => p.stream == aud) rest).takeWhile
              (fun p => decide (p.dts ≤ ts))) = [] := by
            simp [List.takeWhile_cons, hnle]
          rw [htw]
          simp
        · have hf : ¬ p.stream ≠ aud := by simpa using h
          rw [seekAudioScan, if_neg hf, if_neg hgt]
          have hb : (p.stream == aud) = true := by simpa using h
          rw [List.filter_cons_of_pos (by simpa using hb)]
          have hle : p.dts ≤ ts := by omega
          have htw : ((p :: List.filter (fun p => p.stream == aud) rest).takeWhile
              (fun p => decide (p.dts ≤ ts))) =
              p :: ((List.filter (fun p => p.stream == aud) rest).takeWhile
                (fun p => decide (p.dts ≤ ts))) := by
            simp [List.takeWhile_cons, hle]
          rw [htw]
          obtain ⟨ih1, ih2⟩ := ih (some p) true
          constructor
          · dsimp only
            rw [ih1, elim_getLast_cons]
          · dsimp only
            rw [ih2]
            simp
      · have hf : p.stream ≠ aud := h
        rw [seekAudioScan, if_pos hf]
        have hb : (p.stream == aud) = false := by simpa using h
        rw [List.filter_cons_of_neg (by simpa using hb)]
        obtain ⟨ih1, ih2⟩ := ih pkt valid
        exact ⟨ih1, ih2⟩

/-- On a list sorted by timestamp, taking while the timestamp does not
exceed the target is the same as filtering on that bound. -/
theorem sorted_takeWhile_eq_filter (ts : Int) :
    ∀ (A : List Packet), A.Pairwise (fun a b => a.dts ≤ b.dts) →
      A.takeWhile (fun p => decide (p.dts ≤ ts)) =
        A.filter (fun p => decide (p.dts ≤ ts)) := by
  intro A
  induction A with
  | nil => intro _; rfl
  | cons a rest ih =>
      intro hp
      rw [List.pairwise_cons] at hp
      obtain ⟨hall, hrest⟩ := hp
      by_cases hle : a.dts ≤ ts
      · rw [List.takeWhile_cons, List.filter_cons]
        simp [hle, ih hrest]
      · have hnil : rest.filter (fun p => decide (p.dts ≤ ts)) = [] := by
          rw [List.filter_eq_nil_iff]
          intro p hpmem
          have := hall p hpmem
          simp only [decide_eq_true_eq]
          omega
        rw [List.takeWhile_cons, List.filter_cons]
        simp [hle, hnil]

/-- C6: with the demuxer positioned at `c` and the audio packets of the
read sequence ordered by timestamp, `AVI_SeekAudio` retains as the
session's current packet exactly the last audio-stream packet whose
timestamp does not exceed the target (ignoring packets of other
streams), and fails with `AVERROR_EOF` when no such packet exists. -/
theorem seekAudio_retains_last_not_exceeding (env : AEnv) (st : AState) (ts : Int) (c : Nat)
    (hs : env.aseek ts = some c)
    (hsorted : ((env.file.drop c).filter (fun p => p.stream == env.audio_stream)).Pairwise
        (fun a b => a.dts ≤ b.dts)) :
    (∀ q, lastPacketNotExceeding (env.file.drop c) env.audio_stream ts = some q →
        ∃ n, AVI_SeekAudio env st ts =
          Except.ok { st with pkt := some q, cursor := c + n }) ∧
    (lastPacketNotExceeding (env.file.drop c) env.audio_stream ts = none →
        AVI_SeekAudio env st ts = Except.error AVERROR_EOF) := by
  have hcomb : lastPacketNotExceeding (env.file.drop c) env.audio_stream ts =
      (((env.file.drop c).filter (fun p => p.stream == env.audio_stream)).takeWhile
        (fun p => decide (p.dts ≤ ts))).getLast? := by
    unfold lastPacketNotExceeding
    rw [sorted_takeWhile_eq_filter ts _ hsorted, List.filter_filter]
    congr 1
    apply List.filter_congr
    intro x _
    rw [Bool.and_comm]
  obtain ⟨h1, h2⟩ := seekAudioScan_spec env.audio_stream ts (env.file.drop c) st.pkt false
  unfold AVI_SeekAudio
  rw [hs]
  dsimp only
  constructor
  · intro q hq
    rw [hcomb] at hq
    refine ⟨(seekAudioScan env.audio_stream ts st.pkt false (env.file.drop c)).2.2, ?_⟩
    rw [if_pos ?_]
    · rw [h1, hq]
      rfl
    · rw [h2]
      have hne : ¬ (((env.file.drop c).filter
          (fun p => p.stream == env.audio_stream)).takeWhile
          (fun p => decide (p.dts ≤ ts))).isEmpty := by
        intro hemp
        rw [List.isEmpty_iff] at hemp
        rw [hemp] at hq
        exact Option.noConfusion hq
      simp [hne]
  · intro hq
    rw [hcomb] at hq
    rw [if_neg ?_]
    · rw [h2]
      rw [List.getLast?_eq_none_iff] at hq
      simp [hq]

/-- Witness for the audio-seek characterization on a concrete
one-packet file: seeking to timestamp 2 retains the packet at
timestamp 0. -/
theorem seekAudio_retains_last_not_exceeding_witness :
    envA.aseek 2 = some 0 ∧
    ((envA.file.drop 0).filter (fun p => p.stream == envA.audio_stream)).Pairwise
      (fun a b => a.dts ≤ b.dts) ∧
    ∃ n, AVI_SeekAudio envA stFresh 2 =
      Except.ok { stFresh with pkt := some ⟨0, 0⟩, cursor := 0 + n } :=
  ⟨rfl, by decide,
   (seekAudio_retains_last_not_exceeding envA stFresh 2 0 rfl (by decide)).1
     ⟨0, 0⟩ (by decide)⟩

end Avi
